import Mathlib

/-!
# TheManager: schema provisioning and PIN authentication

A shallow embedding of `database/db.go`, `models/user.go` and `pkg/app/app.go`.

* The process-wide handle `database.DB` becomes an explicit `Store` value that is passed to and
  returned from every operation.
* A Go result `(*User, error)` becomes `Option User × Option DbErr`; a function that returns only
  `error` and writes through the handle becomes `Store × Option DbErr`.
* Every call into `database/sql` takes a `fault : Option String`: when it is `some msg` the call
  fails with that message, whatever the store holds. It stands for every failure the engine or the
  driver can report other than `sql.ErrNoRows` (I/O, locking, a value `Scan` cannot convert).
  Two failures depend on the store and are computed from it: a statement against a table that
  does not exist, and an insert into a table whose `AUTOINCREMENT` keys are used up.
* `crypto/sha256` and `encoding/hex` are library code; they are given here as FIPS 180-4 SHA-256 on
  natural numbers reduced modulo `2^32`, and lowercase base-16 encoding.
* Calls to `log` and `fmt.Printf` have no effect on results and are left out.
-/

/-! ## crypto/sha256 -/

namespace Sha256

/-- Rotate a 32-bit word right by `n` places. -/
def rotr (x n : Nat) : Nat := ((x >>> n) ||| (x <<< (32 - n))) % 4294967296

def ch (x y z : Nat) : Nat := (x &&& y) ^^^ ((x ^^^ 4294967295) &&& z)

def maj (x y z : Nat) : Nat := (x &&& y) ^^^ (x &&& z) ^^^ (y &&& z)

def bsig0 (x : Nat) : Nat := rotr x 2 ^^^ rotr x 13 ^^^ rotr x 22

def bsig1 (x : Nat) : Nat := rotr x 6 ^^^ rotr x 11 ^^^ rotr x 25

def ssig0 (x : Nat) : Nat := rotr x 7 ^^^ rotr x 18 ^^^ (x >>> 3)

def ssig1 (x : Nat) : Nat := rotr x 17 ^^^ rotr x 19 ^^^ (x >>> 10)

/-- The sixty-four round constants (the first 32 bits of the fractional parts of the cube roots
of the first sixty-four primes), in decimal. -/
def K : List Nat :=
  [1116352408, 1899447441, 3049323471, 3921009573, 961987163, 1508970993, 2453635748, 2870763221,
   3624381080, 310598401, 607225278, 1426881987, 1925078388, 2162078206, 2614888103, 3248222580,
   3835390401, 4022224774, 264347078, 604807628, 770255983, 1249150122, 1555081692, 1996064986,
   2554220882, 2821834349, 2952996808, 3210313671, 3336571891, 3584528711, 113926993, 338241895,
   666307205, 773529912, 1294757372, 1396182291, 1695183700, 1986661051, 2177026350, 2456956037,
   2730485921, 2820302411, 3259730800, 3345764771, 3516065817, 3600352804, 4094571909, 275423344,
   430227734, 506948616, 659060556, 883997877, 958139571, 1322822218, 1537002063, 1747873779,
   1955562222, 2024104815, 2227730452, 2361852424, 2428436474, 2756734187, 3204031479, 3329325298]

/-- The eight working words of the hash state. -/
structure Digest where
  a : Nat
  b : Nat
  c : Nat
  d : Nat
  e : Nat
  f : Nat
  g : Nat
  h : Nat
deriving DecidableEq, Repr

/-- The initial hash value (from the square roots of the first eight primes), in decimal. -/
def init : Digest :=
  ⟨1779033703, 3144134277, 1013904242, 2773480762, 1359893119, 2600822924, 528734635, 1541459225⟩

/-- Message padding: one byte 0x80, zero bytes up to 56 modulo 64, then the length in bits as
eight big-endian bytes. -/
def pad (msg : List Nat) : List Nat :=
  let len := msg.length
  let bits := (8 * len) % 18446744073709551616
  msg ++ 128 :: List.replicate ((64 - (len + 9) % 64) % 64) 0
    ++ (List.range 8).map (fun i => (bits >>> (8 * (7 - i))) % 256)

/-- Group bytes four by four into big-endian words. -/
def beWords : List Nat → List Nat
  | b0 :: b1 :: b2 :: b3 :: rest => (b0 * 16777216 + b1 * 65536 + b2 * 256 + b3) :: beWords rest
  | _ => []

/-- Extend the message schedule by `n` words; `rev` holds the words so far, newest first. -/
def extend : Nat → List Nat → List Nat
  | 0, rev => rev
  | n + 1, rev =>
    let w := (ssig1 (rev.getD 1 0) + rev.getD 6 0 + ssig0 (rev.getD 14 0) + rev.getD 15 0)
      % 4294967296
    extend n (w :: rev)

/-- The sixty-four schedule words of one 64-byte block. -/
def schedule (block : List Nat) : List Nat :=
  (extend 48 (beWords block).reverse).reverse

/-- One round, applied to a pair (round constant, schedule word). -/
def round (s : Digest) (kw : Nat × Nat) : Digest :=
  let t1 := (s.h + bsig1 s.e + ch s.e s.f s.g + kw.1 + kw.2) % 4294967296
  let t2 := (bsig0 s.a + maj s.a s.b s.c) % 4294967296
  ⟨(t1 + t2) % 4294967296, s.a, s.b, s.c, (s.d + t1) % 4294967296, s.e, s.f, s.g⟩

/-- The compression function on one block. -/
def compress (s : Digest) (block : List Nat) : Digest :=
  let r := (K.zip (schedule block)).foldl round s
  ⟨(s.a + r.a) % 4294967296, (s.b + r.b) % 4294967296, (s.c + r.c) % 4294967296,
   (s.d + r.d) % 4294967296, (s.e + r.e) % 4294967296, (s.f + r.f) % 4294967296,
   (s.g + r.g) % 4294967296, (s.h + r.h) % 4294967296⟩

/-- Run the compression function over `n` consecutive 64-byte blocks. -/
def blocks : Nat → Digest → List Nat → Digest
  | 0, s, _ => s
  | n + 1, s, bs => blocks n (compress s (bs.take 64)) (bs.drop 64)

def wordBytes (w : Nat) : List Nat :=
  [(w >>> 24) % 256, (w >>> 16) % 256, (w >>> 8) % 256, w % 256]

/-- The 32 digest bytes of a byte string (`sha256.Sum256`). -/
def Sum256 (msg : List Nat) : List Nat :=
  let p := pad msg
  let r := blocks (p.length / 64) init p
  [r.a, r.b, r.c, r.d, r.e, r.f, r.g, r.h].flatMap wordBytes

end Sha256

/-! ## Strings as bytes, encoding/hex -/

/-- The UTF-8 bytes of one code point. -/
def utf8Bytes (c : Char) : List Nat :=
  let v := c.toNat
  if v < 128 then [v]
  else if v < 2048 then [192 + v / 64, 128 + v % 64]
  else if v < 65536 then [224 + v / 4096, 128 + (v / 64) % 64, 128 + v % 64]
  else [240 + v / 262144, 128 + (v / 4096) % 64, 128 + (v / 64) % 64, 128 + v % 64]

/-- The Go conversion `[]byte(s)`. -/
def stringBytes (s : String) : List Nat := s.data.flatMap utf8Bytes

def hexDigit (n : Nat) : Char := "0123456789abcdef".data.getD n '0'

/-- The Go function `hex.EncodeToString`: two lowercase digits per byte. -/
def EncodeToString (bs : List Nat) : String :=
  String.mk (bs.flatMap (fun b => [hexDigit (b / 16), hexDigit (b % 16)]))

/-- The lowercase hexadecimal SHA-256 digest of the bytes of a string: the digest the
specification speaks of, written without reference to either `hashPin`. -/
def sha256Hex (p : String) : String := EncodeToString (Sha256.Sum256 (stringBytes p))

/-! ## The store -/

abbrev Timestamp := Nat

/-- A value of a `REAL` column, kept as its 64-bit pattern; no operation computes on it. -/
structure SqlReal where
  bits : Nat
deriving DecidableEq, Repr

/-- The `error` values that come back from `database/sql`. -/
inductive DbErr
  | errNoRows
  | other (msg : String)
deriving DecidableEq, Repr

deriving instance DecidableEq for Except

/-- The text of an error (`err.Error()`). -/
def DbErr.Error : DbErr → String
  | .errNoRows => "sql: no rows in result set"
  | .other msg => msg

/-- A table with an `INTEGER PRIMARY KEY AUTOINCREMENT` key: its rows in rowid order and the
largest rowid handed out so far. -/
structure Table (ρ : Type) where
  rows : List ρ
  seq : Int
deriving DecidableEq, Repr

/-- A row of `users`. -/
structure UserRow where
  id : Int
  name : String
  pin_hash : String
  role : String
  created_at : Timestamp
deriving DecidableEq, Repr

/-- A row of `products`. -/
structure ProductRow where
  id : Int
  name : String
  description : Option String
  price : SqlReal
  barcode : Option String
  created_at : Timestamp
  updated_at : Timestamp
deriving DecidableEq, Repr

/-- A row of `stock`. -/
structure StockRow where
  id : Int
  product_id : Int
  stock_group : String
  quantity : SqlReal
  cost_price : SqlReal
  created_at : Timestamp
deriving DecidableEq, Repr

/-- A row of `clients`. -/
structure ClientRow where
  id : Int
  name : String
  contact : Option String
  address : Option String
  credit_limit : SqlReal
  created_at : Timestamp
deriving DecidableEq, Repr

/-- A row of `transactions`. -/
structure TransactionRow where
  id : Int
  transaction_type : String
  client_id : Option Int
  total_amount : SqlReal
  is_paid : Bool
  created_at : Timestamp
deriving DecidableEq, Repr

/-- A row of `transaction_items`. -/
structure TransactionItemRow where
  id : Int
  transaction_id : Int
  product_id : Int
  stock_id : Int
  quantity : SqlReal
  price : SqlReal
  created_at : Timestamp
deriving DecidableEq, Repr

/-- A row of `payments`. -/
structure PaymentRow where
  id : Int
  transaction_id : Int
  amount : SqlReal
  payment_date : Timestamp
deriving DecidableEq, Repr

/-- The database file: each table is absent (`none`) or present with its rows. -/
structure Store where
  users : Option (Table UserRow)
  products : Option (Table ProductRow)
  stock : Option (Table StockRow)
  clients : Option (Table ClientRow)
  transactions : Option (Table TransactionRow)
  transaction_items : Option (Table TransactionItemRow)
  payments : Option (Table PaymentRow)
deriving DecidableEq, Repr

/-- A freshly created database file: no table exists. -/
def Store.empty : Store := ⟨none, none, none, none, none, none, none⟩

/-- The rows of `users`; none when the table does not exist. -/
def Store.userRows (s : Store) : List UserRow :=
  match s.users with
  | some t => t.rows
  | none => []

/-- The rows of `stock`; none when the table does not exist. -/
def Store.stockRows (s : Store) : List StockRow :=
  match s.stock with
  | some t => t.rows
  | none => []

/-- All seven tables exist. -/
def Store.hasSchema (s : Store) : Bool :=
  s.users.isSome && s.products.isSome && s.stock.isSome && s.clients.isSome
    && s.transactions.isSome && s.transaction_items.isSome && s.payments.isSome

/-- The statement `CREATE TABLE IF NOT EXISTS`: an existing table is left as it is. -/
def createIfNotExists {ρ : Type} : Option (Table ρ) → Option (Table ρ)
  | some t => some t
  | none => some ⟨[], 0⟩

/-- One `DB.Exec` of a schema statement. -/
def execDDL (fault : Option String) (stmt : Store → Store) (s : Store) : Store × Option DbErr :=
  match fault with
  | some msg => (s, some (.other msg))
  | none => (stmt s, none)

/-- The largest rowid the engine can hand out, `2^63 - 1`. -/
def MAX_ROWID : Int := 9223372036854775807

/-- The largest rowid among the rows; `none` for no rows. -/
def largestRowid : List UserRow → Option Int
  | [] => none
  | r :: rs =>
    match largestRowid rs with
    | none => some r.id
    | some m => some (max r.id m)

/-- The key an insert into an `AUTOINCREMENT` table receives: one more than the largest rowid in
the table (1 for an empty table), raised to one more than the largest rowid ever handed out. There
is no key, `none`, once `MAX_ROWID` is in the table or has been handed out: the engine then
answers `SQLITE_FULL`. -/
def newRowid (t : Table UserRow) : Option Int :=
  let next : Option Int :=
    match largestRowid t.rows with
    | none => some 1
    | some m => if MAX_ROWID ≤ m then none else some (m + 1)
  match next with
  | none => none
  | some v => if MAX_ROWID ≤ t.seq then none else some (max v (t.seq + 1))

/-- The statement `INSERT INTO users (name, pin_hash, role) VALUES (?, ?, ?)`: the key is the one
`newRowid` gives, `created_at` takes its default, the current time; without a key the statement
fails with the text of `SQLITE_FULL` and writes nothing. -/
def insertUser (fault : Option String) (now : Timestamp) (name pin_hash role : String)
    (s : Store) : Except DbErr Store :=
  match fault with
  | some msg => .error (.other msg)
  | none =>
    match s.users with
    | none => .error (.other "no such table: users")
    | some t =>
      match newRowid t with
      | none => .error (.other "database or disk is full")
      | some id => .ok { s with users := some ⟨t.rows ++ [⟨id, name, pin_hash, role, now⟩], id⟩ }

/-- The query `SELECT COUNT(*) FROM users`, scanned into an `int`. -/
def countUsers (fault : Option String) (s : Store) : Except DbErr Nat :=
  match fault with
  | some msg => .error (.other msg)
  | none =>
    match s.users with
    | none => .error (.other "no such table: users")
    | some t => .ok t.rows.length

/-- A `QueryRow` over `users` with a `WHERE` condition: the first row that satisfies it, or
`sql.ErrNoRows`. -/
def queryRowUsers (fault : Option String) (s : Store) (cond : UserRow → Bool) :
    Except DbErr UserRow :=
  match fault with
  | some msg => .error (.other msg)
  | none =>
    match s.users with
    | none => .error (.other "no such table: users")
    | some t =>
      match t.rows.find? cond with
      | some r => .ok r
      | none => .error .errNoRows

/-! ## database/db.go -/

namespace database

/-- The function `createTables`: seven `CREATE TABLE IF NOT EXISTS` statements in order, stopping at
the first that fails; `fault i` is the outcome of statement `i`. -/
def createTables (fault : Nat → Option String) (s : Store) : Store × Option DbErr :=
  match execDDL (fault 0) (fun s => { s with users := createIfNotExists s.users }) s with
  | (s, some err) => (s, some err)
  | (s, none) =>
  match execDDL (fault 1) (fun s => { s with products := createIfNotExists s.products }) s with
  | (s, some err) => (s, some err)
  | (s, none) =>
  match execDDL (fault 2) (fun s => { s with stock := createIfNotExists s.stock }) s with
  | (s, some err) => (s, some err)
  | (s, none) =>
  match execDDL (fault 3) (fun s => { s with clients := createIfNotExists s.clients }) s with
  | (s, some err) => (s, some err)
  | (s, none) =>
  match execDDL (fault 4)
      (fun s => { s with transactions := createIfNotExists s.transactions }) s with
  | (s, some err) => (s, some err)
  | (s, none) =>
  match execDDL (fault 5)
      (fun s => { s with transaction_items := createIfNotExists s.transaction_items }) s with
  | (s, some err) => (s, some err)
  | (s, none) =>
  match execDDL (fault 6) (fun s => { s with payments := createIfNotExists s.payments }) s with
  | (s, some err) => (s, some err)
  | (s, none) => (s, none)

/-- The literal `defaultPinHash` of `createDefaultUser`. -/
def defaultPinHash : String := "03ac674216f3e15c761ee1a5e255f067953623c8b388b4459e13f978d7c846f4"

/-- The function `createDefaultUser`: count the users and, when there is none, insert the admin;
`fault 0` is the outcome of the count, `fault 1` that of the insert. -/
def createDefaultUser (fault : Nat → Option String) (now : Timestamp) (s : Store) :
    Store × Option DbErr :=
  match countUsers (fault 0) s with
  | .error err => (s, some err)
  | .ok count =>
    if count = 0 then
      match insertUser (fault 1) now "Admin" defaultPinHash "admin" s with
      | .error err => (s, some err)
      | .ok s1 => (s1, none)
    else (s, none)

/-- The database part of `InitDB`: `createTables`, then `createDefaultUser`, each error wrapped by
`fmt.Errorf`. The result is the store and the error text, if any. -/
def InitDB (faultT faultU : Nat → Option String) (now : Timestamp) (s : Store) :
    Store × Option String :=
  match createTables faultT s with
  | (s1, some err) => (s1, some ("failed to create tables: " ++ err.Error))
  | (s1, none) =>
    match createDefaultUser faultU now s1 with
    | (s2, some err) => (s2, some ("failed to create default user: " ++ err.Error))
    | (s2, none) => (s2, none)

end database

/-- No statement fails. -/
def noFault : Nat → Option String := fun _ => none

/-! ## models/user.go -/

namespace models

/-- The Go struct `User`. -/
structure User where
  ID : Int
  Name : String
  PinHash : String
  Role : String
  CreatedAt : Timestamp
deriving DecidableEq, Repr

/-- The call `Scan(&user.ID, &user.Name, &user.PinHash, &user.Role, &user.CreatedAt)`. -/
def scanUser (r : UserRow) : User := ⟨r.id, r.name, r.pin_hash, r.role, r.created_at⟩

/-- The helper `hashPin` of package models. -/
def hashPin (pin : String) : String := EncodeToString (Sha256.Sum256 (stringBytes pin))

/-- The function `GetUserByID`. -/
def GetUserByID (fault : Option String) (s : Store) (id : Int) : Option User × Option DbErr :=
  match queryRowUsers fault s (fun r => r.id == id) with
  | .error err =>
    if err = .errNoRows then (none, none)
    else (none, some err)
  | .ok r => (some (scanUser r), none)

/-- The function `ValidateUserPin`. -/
def ValidateUserPin (fault : Option String) (s : Store) (pin : String) :
    Option User × Option DbErr :=
  let pinHash := hashPin pin
  match queryRowUsers fault s (fun r => r.pin_hash == pinHash) with
  | .error err =>
    if err = .errNoRows then (none, none)
    else (none, some err)
  | .ok r => (some (scanUser r), none)

end models

/-! ## pkg/app/app.go -/

namespace app

/-- The Go struct `LoginResponse`. -/
structure LoginResponse where
  Success : Bool
  Message : String
  UserID : Int
  Name : String
  Role : String
deriving DecidableEq, Repr

/-- The helper `hashPin` of package app. -/
def hashPin (pin : String) : String := EncodeToString (Sha256.Sum256 (stringBytes pin))

/-- The method `Login`. -/
def Login (fault : Option String) (s : Store) (rawPin : String) : LoginResponse :=
  let pinHash := hashPin rawPin
  match models.ValidateUserPin fault s pinHash with
  | (_, some _) => ⟨false, "Authentication error", 0, "", ""⟩
  | (none, none) => ⟨false, "Invalid PIN", 0, "", ""⟩
  | (some user, none) => ⟨true, "Login successful", user.ID, user.Name, user.Role⟩

end app

/-! ## Sequences of operations -/

/-- The operations of the program, each with the outcome of its database calls. -/
inductive Op
  | createTables (fault : Nat → Option String)
  | createDefaultUser (fault : Nat → Option String) (now : Timestamp)
  | getUserByID (fault : Option String) (id : Int)
  | validateUserPin (fault : Option String) (pin : String)
  | login (fault : Option String) (rawPin : String)

/-- The store after one operation; the three lookups only read. -/
def step (s : Store) : Op → Store
  | .createTables fault => (database.createTables fault s).1
  | .createDefaultUser fault now => (database.createDefaultUser fault now s).1
  | .getUserByID _ _ => s
  | .validateUserPin _ _ => s
  | .login _ _ => s

/-- The store after a sequence of operations. -/
def run (s : Store) (ops : List Op) : Store := ops.foldl step s

/-! ## Sample stores -/

/-- A store with the whole schema whose only row is the bootstrap admin. -/
def adminStore : Store :=
  ⟨some ⟨[⟨1, "Admin", database.defaultPinHash, "admin", 0⟩], 1⟩,
   some ⟨[], 0⟩, some ⟨[], 0⟩, some ⟨[], 0⟩, some ⟨[], 0⟩, some ⟨[], 0⟩, some ⟨[], 0⟩⟩

/-- A store with two users and no other table. -/
def twoUserStore : Store :=
  ⟨some ⟨[⟨1, "Admin", database.defaultPinHash, "admin", 0⟩, ⟨4, "Ana", "x", "operator", 7⟩], 4⟩,
   none, none, none, none, none, none⟩

/-- A store whose `users` table is empty and has handed out the largest rowid. -/
def exhaustedStore : Store :=
  ⟨some ⟨[], 9223372036854775807⟩, none, none, none, none, none, none⟩

set_option maxRecDepth 100000

/-! ## Lookups -/

theorem queryRowUsers_ok_mem {fault : Option String} {s : Store} {cond : UserRow → Bool}
    {r : UserRow} (h : queryRowUsers fault s cond = .ok r) : r ∈ s.userRows ∧ cond r = true := by
  unfold queryRowUsers at h
  cases fault with
  | some msg => simp at h
  | none =>
    cases hU : s.users with
    | none => simp [hU] at h
    | some t =>
      simp only [hU] at h
      cases hf : t.rows.find? cond with
      | none => simp [hf] at h
      | some r0 =>
        simp only [hf, Except.ok.injEq] at h
        subst h
        exact ⟨by simpa [Store.userRows, hU] using List.mem_of_find?_eq_some hf,
          List.find?_some hf⟩

theorem queryRowUsers_none_of_mem (s : Store) (cond : UserRow → Bool) {r : UserRow}
    (hr : r ∈ s.userRows) (hc : cond r = true) :
    ∃ r0, queryRowUsers none s cond = .ok r0 := by
  unfold queryRowUsers
  cases hU : s.users with
  | none => simp [Store.userRows, hU] at hr
  | some t =>
    simp only [Store.userRows, hU] at hr
    cases hf : t.rows.find? cond with
    | none =>
      rw [List.find?_eq_none] at hf
      exact absurd hc (hf r hr)
    | some r0 => exact ⟨r0, by simp [hf]⟩

namespace models

/-- Whatever the fault, a user that `ValidateUserPin` returns is a stored row whose `pin_hash` is
the digest of the PIN. -/
theorem ValidateUserPin_some_stored (fault : Option String) (s : Store) (p : String) (u : User)
    (h : (ValidateUserPin fault s p).1 = some u) :
    u.PinHash = hashPin p ∧ ∃ r ∈ s.userRows, r.pin_hash = hashPin p ∧ scanUser r = u := by
  unfold ValidateUserPin at h
  cases hq : queryRowUsers fault s (fun r => r.pin_hash == hashPin p) with
  | error err =>
    simp only [hq] at h
    split at h <;> simp at h
  | ok r =>
    simp only [hq, Option.some.injEq] at h
    obtain ⟨hm, hc⟩ := queryRowUsers_ok_mem hq
    have hc' : r.pin_hash = hashPin p := by simpa using hc
    subst h
    exact ⟨hc', r, hm, hc', rfl⟩

/-- Without a fault, a stored row with the digest of the PIN makes `ValidateUserPin` return a
user. -/
theorem ValidateUserPin_of_stored (s : Store) (p : String)
    (h : ∃ r ∈ s.userRows, r.pin_hash = hashPin p) :
    ∃ u, ValidateUserPin none s p = (some u, none) := by
  obtain ⟨r, hm, hh⟩ := h
  obtain ⟨r0, h0⟩ := queryRowUsers_none_of_mem s (fun r => r.pin_hash == hashPin p) hm
    (by simpa using hh)
  exact ⟨scanUser r0, by simp [ValidateUserPin, h0]⟩

/-- C1: without a storage fault `ValidateUserPin p` returns a user exactly when some stored user
has `pin_hash` equal to the lowercase hex SHA-256 digest of `p`; and whatever the fault, a returned
user is a stored row whose `pin_hash` is that digest, so no user comes back for a PIN whose digest
matches no stored credential. -/
theorem ValidateUserPin_user_iff_digest_stored (s : Store) (p : String) :
    ((∃ u, ValidateUserPin none s p = (some u, none)) ↔
        ∃ r ∈ s.userRows, r.pin_hash = sha256Hex p) ∧
    (∀ fault u, (ValidateUserPin fault s p).1 = some u →
        u.PinHash = sha256Hex p ∧ ∃ r ∈ s.userRows, r.pin_hash = sha256Hex p ∧ scanUser r = u) ∧
    ((∀ r ∈ s.userRows, r.pin_hash ≠ sha256Hex p) →
        ∀ fault, (ValidateUserPin fault s p).1 = none) := by
  have hd : hashPin p = sha256Hex p := rfl
  rw [← hd]
  refine ⟨⟨?_, ValidateUserPin_of_stored s p⟩, fun fault u => ValidateUserPin_some_stored fault s p u,
    ?_⟩
  · rintro ⟨u, hu⟩
    obtain ⟨_, r, hm, hh, _⟩ := ValidateUserPin_some_stored none s p u (by rw [hu])
    exact ⟨r, hm, hh⟩
  · intro hno fault
    cases hv : (ValidateUserPin fault s p).1 with
    | none => rfl
    | some u =>
      obtain ⟨_, r, hm, hh, _⟩ := ValidateUserPin_some_stored fault s p u hv
      exact absurd hh (hno r hm)

theorem ValidateUserPin_user_iff_digest_stored_witness :
    (∃ u, ValidateUserPin none twoUserStore "1234" = (some u, none)) ∧
    (ValidateUserPin none twoUserStore "0000").1 = none :=
  ⟨(ValidateUserPin_user_iff_digest_stored twoUserStore "1234").1.2
      ⟨⟨1, "Admin", database.defaultPinHash, "admin", 0⟩, by decide, by decide⟩,
   (ValidateUserPin_user_iff_digest_stored twoUserStore "0000").2.2 (by decide) none⟩

end models

/-! ## Provisioning -/

theorem newRowid_nil (q : Int) :
    newRowid ⟨[], q⟩ = if MAX_ROWID ≤ q then none else some (max 1 (q + 1)) := rfl

namespace database

theorem createTables_noFault (s : Store) :
    createTables noFault s =
      (⟨createIfNotExists s.users, createIfNotExists s.products, createIfNotExists s.stock,
        createIfNotExists s.clients, createIfNotExists s.transactions,
        createIfNotExists s.transaction_items, createIfNotExists s.payments⟩, none) := rfl

theorem createIfNotExists_of_isSome {ρ : Type} (o : Option (Table ρ)) (h : o.isSome = true) :
    createIfNotExists o = o := by
  cases o with
  | none => simp at h
  | some t => rfl

theorem createIfNotExists_isSome {ρ : Type} (o : Option (Table ρ)) :
    (createIfNotExists o).isSome = true := by
  cases o <;> rfl

/-- Whatever fails, `createTables` leaves `users` and `stock` as they were or creates them
empty. -/
theorem createTables_users_stock (fault : Nat → Option String) (s : Store) :
    ((createTables fault s).1.users = s.users ∨
      (createTables fault s).1.users = createIfNotExists s.users) ∧
    ((createTables fault s).1.stock = s.stock ∨
      (createTables fault s).1.stock = createIfNotExists s.stock) := by
  unfold createTables execDDL
  cases fault 0 <;> cases fault 1 <;> cases fault 2 <;> cases fault 3 <;> cases fault 4 <;>
    cases fault 5 <;> cases fault 6 <;> simp

/-- A run of `createTables` that returns no error did what the run without faults does. -/
theorem createTables_of_no_error (fault : Nat → Option String) (s : Store)
    (h : (createTables fault s).2 = none) : createTables fault s = createTables noFault s := by
  rw [createTables_noFault]
  unfold createTables execDDL at h ⊢
  cases h0 : fault 0 <;> cases h1 : fault 1 <;> cases h2 : fault 2 <;> cases h3 : fault 3 <;>
    cases h4 : fault 4 <;> cases h5 : fault 5 <;> cases h6 : fault 6 <;>
    simp [h0, h1, h2, h3, h4, h5, h6] at h ⊢

theorem createTables_userRows (fault : Nat → Option String) (s : Store) :
    (createTables fault s).1.userRows = s.userRows := by
  rcases (createTables_users_stock fault s).1 with h | h
  · simp [Store.userRows, h]
  · simp only [Store.userRows, h]
    cases s.users <;> rfl

theorem createTables_stockRows (fault : Nat → Option String) (s : Store) :
    (createTables fault s).1.stockRows = s.stockRows := by
  rcases (createTables_users_stock fault s).2 with h | h
  · simp [Store.stockRows, h]
  · simp only [Store.stockRows, h]
    cases s.stock <;> rfl

theorem createTables_noFault_of_hasSchema (s : Store) (h : s.hasSchema = true) :
    createTables noFault s = (s, none) := by
  rw [createTables_noFault]
  simp only [Store.hasSchema, Bool.and_eq_true] at h
  obtain ⟨⟨⟨⟨⟨⟨h1, h2⟩, h3⟩, h4⟩, h5⟩, h6⟩, h7⟩ := h
  simp [createIfNotExists_of_isSome, h1, h2, h3, h4, h5, h6, h7]

theorem createTables_noFault_hasSchema (s : Store) :
    (createTables noFault s).1.hasSchema = true := by
  rw [createTables_noFault]
  simp [Store.hasSchema, createIfNotExists_isSome]

/-- The store after the admin has been inserted with key `id`. -/
theorem createDefaultUser_empty (fault : Nat → Option String) (s : Store) (q : Int)
    (now : Timestamp) (h : s.users = some ⟨[], q⟩) :
    createDefaultUser fault now s =
      match fault 0 with
      | some msg => (s, some (.other msg))
      | none =>
        match fault 1 with
        | some msg => (s, some (.other msg))
        | none =>
          if MAX_ROWID ≤ q then (s, some (.other "database or disk is full"))
          else ({ s with users := some ⟨[⟨max 1 (q + 1), "Admin", defaultPinHash, "admin", now⟩],
                  max 1 (q + 1)⟩ }, none) := by
  simp only [createDefaultUser, countUsers, insertUser, h, newRowid_nil]
  cases fault 0 with
  | some msg => rfl
  | none =>
    cases fault 1 with
    | some msg => rfl
    | none =>
      by_cases hq : MAX_ROWID ≤ q <;> simp [hq]

/-- With a user present `createDefaultUser` writes nothing, whatever fails. -/
theorem createDefaultUser_of_ne_nil (fault : Nat → Option String) (s : Store) (t : Table UserRow)
    (now : Timestamp) (h : s.users = some t) (hne : t.rows ≠ []) :
    createDefaultUser fault now s =
      match fault 0 with
      | some msg => (s, some (.other msg))
      | none => (s, none) := by
  simp only [createDefaultUser, countUsers, h]
  cases fault 0 with
  | some msg => rfl
  | none =>
    have : t.rows.length ≠ 0 := by simpa using hne
    simp [this]

/-- Without the `users` table `createDefaultUser` writes nothing. -/
theorem createDefaultUser_of_no_table (fault : Nat → Option String) (s : Store) (now : Timestamp)
    (h : s.users = none) : (createDefaultUser fault now s).1 = s := by
  simp only [createDefaultUser, countUsers, h]
  cases fault 0 <;> rfl

/-- C4: on a store whose `users` table is empty and still has a key to hand out,
`createDefaultUser` adds exactly one row, named "Admin" with role "admin", and changes no other
table; when the keys are used up the insert fails, the error is returned and nothing is written;
on a store with one or more users nothing changes at all, also when a statement fails; and
whenever no error is returned, a row has been added iff the table was empty. -/
theorem createDefaultUser_inserts_iff_users_empty (s : Store) (t : Table UserRow)
    (now : Timestamp) (h : s.users = some t) :
    (t.rows = [] → t.seq < MAX_ROWID →
      createDefaultUser noFault now s =
        ({ s with users := some ⟨[⟨max 1 (t.seq + 1), "Admin", defaultPinHash, "admin", now⟩],
            max 1 (t.seq + 1)⟩ }, none)) ∧
    (t.rows = [] → MAX_ROWID ≤ t.seq →
      createDefaultUser noFault now s = (s, some (.other "database or disk is full"))) ∧
    (t.rows ≠ [] → createDefaultUser noFault now s = (s, none)) ∧
    (t.rows ≠ [] → ∀ fault, (createDefaultUser fault now s).1 = s) ∧
    (∀ fault, (createDefaultUser fault now s).2 = none →
      ((createDefaultUser fault now s).1.userRows.length = s.userRows.length + 1 ↔
        t.rows = [])) := by
  obtain ⟨rows, q⟩ := t
  refine ⟨?_, ?_, ?_, ?_, ?_⟩
  · intro he hq
    simp only at he hq
    subst he
    rw [createDefaultUser_empty noFault s q now h]
    simp [noFault, not_le.mpr hq]
  · intro he hq
    simp only at he hq
    subst he
    rw [createDefaultUser_empty noFault s q now h]
    simp [noFault, hq]
  · intro hne
    rw [createDefaultUser_of_ne_nil noFault s _ now h hne]
    rfl
  · intro hne fault
    rw [createDefaultUser_of_ne_nil fault s _ now h hne]
    cases fault 0 <;> rfl
  · intro fault hok
    by_cases he : rows = []
    · subst he
      rw [createDefaultUser_empty fault s q now h] at hok ⊢
      cases h0 : fault 0 with
      | some msg => simp [h0] at hok
      | none =>
        cases h1 : fault 1 with
        | some msg => simp [h0, h1] at hok
        | none =>
          by_cases hq : MAX_ROWID ≤ q
          · simp [h0, h1, hq] at hok
          · simp [hq, Store.userRows, h]
    · rw [createDefaultUser_of_ne_nil fault s _ now h he]
      cases fault 0 <;> simp [he]

theorem createDefaultUser_inserts_iff_users_empty_witness :
    createDefaultUser noFault 9 ⟨some ⟨[], 3⟩, none, none, none, none, none, none⟩ =
        (⟨some ⟨[⟨4, "Admin", defaultPinHash, "admin", 9⟩], 4⟩,
          none, none, none, none, none, none⟩, none) ∧
      createDefaultUser noFault 9 twoUserStore = (twoUserStore, none) :=
  ⟨(createDefaultUser_inserts_iff_users_empty
      ⟨some ⟨[], 3⟩, none, none, none, none, none, none⟩ ⟨[], 3⟩ 9 rfl).1 rfl (by decide),
   (createDefaultUser_inserts_iff_users_empty twoUserStore _ 9 rfl).2.2.1 (by decide)⟩

/-- C4, as first stated, fails on a store with zero users whose keys are used up:
`createDefaultUser` adds no user there and returns the error of the insert. -/
theorem createDefaultUser_adds_nothing_when_keys_used_up :
    exhaustedStore.userRows = [] ∧
      createDefaultUser noFault 0 exhaustedStore
        = (exhaustedStore, some (.other "database or disk is full")) := by
  decide

end database

namespace database

theorem InitDB_of_hasSchema (s : Store) (now : Timestamp) (hS : s.hasSchema = true) :
    InitDB noFault noFault now s =
      match createDefaultUser noFault now s with
      | (s2, some err) => (s2, some ("failed to create default user: " ++ err.Error))
      | (s2, none) => (s2, none) := by
  unfold InitDB
  rw [createTables_noFault_of_hasSchema s hS]

theorem InitDB_noFault_createTables (s : Store) (now : Timestamp) :
    InitDB noFault noFault now s = InitDB noFault noFault now (createTables noFault s).1 := by
  rw [InitDB_of_hasSchema _ now (createTables_noFault_hasSchema s)]
  unfold InitDB
  rw [createTables_noFault]

theorem users_of_hasSchema (s : Store) (hS : s.hasSchema = true) : ∃ t, s.users = some t := by
  cases hU : s.users with
  | none => simp [Store.hasSchema, hU] at hS
  | some t => exact ⟨t, rfl⟩

/-- On a store with the schema, provisioning without faults returns what it returns when run on
the store it leaves. -/
theorem InitDB_fixpoint_of_hasSchema (s : Store) (now1 now2 : Timestamp)
    (hS : s.hasSchema = true) :
    InitDB noFault noFault now2 (InitDB noFault noFault now1 s).1
      = InitDB noFault noFault now1 s := by
  obtain ⟨⟨rows, q⟩, hU⟩ := users_of_hasSchema s hS
  by_cases he : rows = []
  · subst he
    by_cases hq : MAX_ROWID ≤ q
    · have hD : ∀ now, InitDB noFault noFault now s
          = (s, some ("failed to create default user: " ++ "database or disk is full")) := by
        intro now
        rw [InitDB_of_hasSchema s now hS, createDefaultUser_empty noFault s q now hU]
        simp [noFault, hq, DbErr.Error]
      rw [hD now1, hD now2]
    · have hD : InitDB noFault noFault now1 s
          = ({ s with users := some ⟨[⟨max 1 (q + 1), "Admin", defaultPinHash, "admin", now1⟩],
                max 1 (q + 1)⟩ }, none) := by
        rw [InitDB_of_hasSchema s now1 hS, createDefaultUser_empty noFault s q now1 hU]
        simp [noFault, hq]
      rw [hD]
      have hS2 : Store.hasSchema { s with users := some ⟨[⟨max 1 (q + 1), "Admin",
          defaultPinHash, "admin", now1⟩], max 1 (q + 1)⟩ } = true := by
        simp only [Store.hasSchema, Bool.and_eq_true] at hS ⊢
        simp [hS]
      rw [InitDB_of_hasSchema _ now2 hS2,
        createDefaultUser_of_ne_nil noFault _ _ now2 rfl (by simp)]
      rfl
  · have hD : ∀ now, InitDB noFault noFault now s = (s, none) := by
      intro now
      rw [InitDB_of_hasSchema s now hS, createDefaultUser_of_ne_nil noFault s _ now hU he]
      rfl
    rw [hD now1, hD now2]

/-- C5, as amended: when nothing fails, a second provisioning run (`createTables`, then
`createDefaultUser`) returns what the first returned and leaves the store as the first left it; so
it returns no error whenever the first returned none, which it does on every store that has a user
or still has a key to hand out; `createTables` alone is idempotent, and on a store that has the
schema it changes nothing. -/
theorem provisioning_idempotent (s : Store) (now1 now2 : Timestamp) :
    InitDB noFault noFault now2 (InitDB noFault noFault now1 s).1
      = InitDB noFault noFault now1 s ∧
    ((InitDB noFault noFault now1 s).2 = none →
      InitDB noFault noFault now2 (InitDB noFault noFault now1 s).1
        = ((InitDB noFault noFault now1 s).1, none)) ∧
    (s.userRows ≠ [] → (InitDB noFault noFault now1 s).2 = none) ∧
    ((∀ t, s.users = some t → t.seq < MAX_ROWID) → (InitDB noFault noFault now1 s).2 = none) ∧
    createTables noFault (createTables noFault s).1 = ((createTables noFault s).1, none) ∧
    (s.hasSchema = true → createTables noFault s = (s, none)) := by
  have hfix : InitDB noFault noFault now2 (InitDB noFault noFault now1 s).1
      = InitDB noFault noFault now1 s := by
    rw [InitDB_noFault_createTables s now1]
    exact InitDB_fixpoint_of_hasSchema _ now1 now2 (createTables_noFault_hasSchema s)
  have hS1 := createTables_noFault_hasSchema s
  have hR := createTables_userRows noFault s
  obtain ⟨⟨rows, q⟩, hU⟩ := users_of_hasSchema _ hS1
  have hrows : rows = s.userRows := by
    rw [← hR]; simp [Store.userRows, hU]
  refine ⟨hfix, ?_, ?_, ?_,
    createTables_noFault_of_hasSchema _ hS1, createTables_noFault_of_hasSchema s⟩
  · intro hok
    rw [hfix]
    exact Prod.ext rfl hok
  · intro hne
    rw [InitDB_noFault_createTables s now1, InitDB_of_hasSchema _ now1 hS1,
      createDefaultUser_of_ne_nil noFault _ _ now1 hU (hrows ▸ hne)]
    rfl
  · intro hseq
    rw [InitDB_noFault_createTables s now1, InitDB_of_hasSchema _ now1 hS1]
    by_cases he : rows = []
    · subst he
      have hq : ¬ MAX_ROWID ≤ q := by
        cases hs : s.users with
        | none =>
          have h0 : (createTables noFault s).1.users = some ⟨[], 0⟩ := by
            rw [createTables_noFault]; simp [hs, createIfNotExists]
          rw [hU] at h0
          have : q = 0 := by simpa using h0
          subst this
          decide
        | some t0 =>
          have h0 : (createTables noFault s).1.users = some t0 := by
            rw [createTables_noFault]; simp [hs, createIfNotExists]
          rw [hU] at h0
          have : t0.seq = q := by
            have := Option.some.inj h0
            rw [← this]
          exact not_le.mpr (this ▸ hseq t0 hs)
      rw [createDefaultUser_empty noFault _ q now1 hU]
      simp [noFault, hq]
    · rw [createDefaultUser_of_ne_nil noFault _ _ now1 hU he]
      rfl

theorem provisioning_idempotent_witness :
    createTables noFault adminStore = (adminStore, none) ∧
      (InitDB noFault noFault 4 twoUserStore).2 = none :=
  ⟨(provisioning_idempotent adminStore 0 0).2.2.2.2.2 (by decide),
   (provisioning_idempotent twoUserStore 4 0).2.2.1 (by decide)⟩

/-- C5, as first stated, fails on a store whose empty `users` table has used up its keys: the
second provisioning run returns an error, as the first did. -/
theorem provisioning_second_run_fails_when_keys_used_up :
    (InitDB noFault noFault 0 (InitDB noFault noFault 0 exhaustedStore).1).2
      = some "failed to create default user: database or disk is full" := by
  decide

end database

namespace models

/-- C6: on a store whose `users` table exists and without a storage fault, `GetUserByID id` returns
a stored row with that id, column by column, when one exists, and that very row when ids are
unique; when no row has the id it returns no user and no error. -/
theorem GetUserByID_found_or_not_found (s : Store) (t : Table UserRow) (id : Int)
    (h : s.users = some t) :
    ((∃ r ∈ t.rows, r.id = id) →
      ∃ r ∈ t.rows, r.id = id ∧
        GetUserByID none s id = (some ⟨r.id, r.name, r.pin_hash, r.role, r.created_at⟩, none)) ∧
    ((∀ r ∈ t.rows, r.id ≠ id) → GetUserByID none s id = (none, none)) ∧
    (∀ r ∈ t.rows, (t.rows.map (fun r => r.id)).Nodup → r.id = id →
      GetUserByID none s id = (some ⟨r.id, r.name, r.pin_hash, r.role, r.created_at⟩, none)) := by
  have found : (∃ r ∈ t.rows, r.id = id) →
      ∃ r ∈ t.rows, r.id = id ∧
        GetUserByID none s id = (some ⟨r.id, r.name, r.pin_hash, r.role, r.created_at⟩, none) := by
    rintro ⟨r, hm, hid⟩
    obtain ⟨r0, h0⟩ := queryRowUsers_none_of_mem s (fun r => r.id == id)
      (by simpa [Store.userRows, h] using hm) (by simpa using hid)
    obtain ⟨hm0, hc0⟩ := queryRowUsers_ok_mem h0
    refine ⟨r0, by simpa [Store.userRows, h] using hm0, by simpa using hc0, ?_⟩
    simp [GetUserByID, h0, scanUser]
  refine ⟨found, ?_, ?_⟩
  · intro hno
    have hf : t.rows.find? (fun r => r.id == id) = none := by
      rw [List.find?_eq_none]
      intro r hr
      simpa using hno r hr
    simp [GetUserByID, queryRowUsers, h, hf]
  · intro r hr hnd hid
    obtain ⟨r0, hm0, hid0, hres⟩ := found ⟨r, hr, hid⟩
    have : r0 = r := by
      have hinj := List.inj_on_of_nodup_map hnd
      exact hinj hm0 hr (hid0.trans hid.symm)
    rw [← this]
    exact hres

theorem GetUserByID_found_or_not_found_witness :
    GetUserByID none twoUserStore 4 = (some ⟨4, "Ana", "x", "operator", 7⟩, none) ∧
      GetUserByID none twoUserStore 2 = (none, none) :=
  ⟨(GetUserByID_found_or_not_found twoUserStore _ 4 rfl).2.2
      ⟨4, "Ana", "x", "operator", 7⟩ (by decide) (by decide) rfl,
   (GetUserByID_found_or_not_found twoUserStore _ 2 rfl).2.1 (by decide)⟩

end models

/-! ## Authentication -/

namespace app

/-- C7: a query failure other than no-rows comes back from `ValidateUserPin` as that same error
with no user, and makes `Login` answer "Authentication error"; a query that finds no row makes
`ValidateUserPin` return no user and no error, and `Login` answer "Invalid PIN"; in both cases
`Login` reports failure with zero `UserID`, `Name` and `Role`. -/
theorem fault_and_no_match_kept_apart (fault : Option String) (s : Store) (pin : String) :
    (∀ err, err ≠ DbErr.errNoRows →
      queryRowUsers fault s (fun r => r.pin_hash == models.hashPin pin) = .error err →
      models.ValidateUserPin fault s pin = (none, some err)) ∧
    (queryRowUsers fault s (fun r => r.pin_hash == models.hashPin pin) = .error .errNoRows →
      models.ValidateUserPin fault s pin = (none, none)) ∧
    (∀ err, err ≠ DbErr.errNoRows →
      queryRowUsers fault s (fun r => r.pin_hash == models.hashPin (hashPin pin)) = .error err →
      Login fault s pin = ⟨false, "Authentication error", 0, "", ""⟩) ∧
    (queryRowUsers fault s (fun r => r.pin_hash == models.hashPin (hashPin pin))
        = .error .errNoRows →
      Login fault s pin = ⟨false, "Invalid PIN", 0, "", ""⟩) ∧
    (∀ msg, fault = some msg →
      models.ValidateUserPin fault s pin = (none, some (.other msg)) ∧
      Login fault s pin = ⟨false, "Authentication error", 0, "", ""⟩) := by
  refine ⟨?_, ?_, ?_, ?_, ?_⟩
  · intro err hne hq
    simp [models.ValidateUserPin, hq, hne]
  · intro hq
    simp [models.ValidateUserPin, hq]
  · intro err hne hq
    simp [Login, models.ValidateUserPin, hq, hne]
  · intro hq
    simp [Login, models.ValidateUserPin, hq]
  · rintro msg rfl
    simp [Login, models.ValidateUserPin, queryRowUsers]

theorem fault_and_no_match_kept_apart_witness :
    (models.ValidateUserPin (some "disk I/O error") adminStore "1234"
        = (none, some (.other "disk I/O error")) ∧
      Login (some "disk I/O error") adminStore "1234"
        = ⟨false, "Authentication error", 0, "", ""⟩) ∧
    models.ValidateUserPin none Store.empty "1234"
        = (none, some (.other "no such table: users")) ∧
    Login none twoUserStore "" = ⟨false, "Invalid PIN", 0, "", ""⟩ :=
  ⟨(fault_and_no_match_kept_apart (some "disk I/O error") adminStore "1234").2.2.2.2 _ rfl,
   (fault_and_no_match_kept_apart none Store.empty "1234").1 _ (by decide) rfl,
   (fault_and_no_match_kept_apart none twoUserStore "").2.2.2.1 (by decide)⟩

end app

/-- The model of `hashPin` reproduces the published SHA-256 digests of the empty string and of
"abc". -/
theorem hashPin_test_vectors :
    models.hashPin "" = "e3b0c44298fc1c149afbf4c8996fb92427ae41e4649b934ca495991b7852b855" ∧
    models.hashPin "abc"
      = "ba7816bf8f01cfea414140de5dae2223b00361a396177a9cb410ff61f20015ad" := by
  decide

/-- The digest of "1234" is the literal stored for the bootstrap admin. -/
theorem hashPin_1234 : models.hashPin "1234" = database.defaultPinHash := by
  decide

/-- The digest of the digest of "1234" is another string. -/
theorem hashPin_hashPin_1234 :
    models.hashPin (app.hashPin "1234")
      = "756bc47cb5215dc3329ca7e1f7be33a2dad68990bb94b76d90aa07f4e44a233a" := by
  decide

theorem defaultPinHash_ne_digest_of_digest :
    database.defaultPinHash ≠ "756bc47cb5215dc3329ca7e1f7be33a2dad68990bb94b76d90aa07f4e44a233a" := by
  decide

namespace models

/-- The lookup by PIN on a `users` table with a single row. -/
theorem ValidateUserPin_single (s : Store) (r : UserRow) (q : Int) (p : String)
    (h : s.users = some ⟨[r], q⟩) :
    ValidateUserPin none s p =
      if r.pin_hash = hashPin p then (some (scanUser r), none) else (none, none) := by
  by_cases hc : r.pin_hash = hashPin p
  · simp [ValidateUserPin, queryRowUsers, h, hc]
  · simp [ValidateUserPin, queryRowUsers, h, hc]

end models

namespace app

/-- What `Login` does when nothing fails: it succeeds exactly when a stored `pin_hash` equals the
digest of the digest of the raw PIN. -/
theorem Login_success_iff (s : Store) (rawPin : String) :
    (Login none s rawPin).Success = true ↔
      ∃ r ∈ s.userRows, r.pin_hash = models.hashPin (hashPin rawPin) := by
  have hiff : (∃ u, models.ValidateUserPin none s (hashPin rawPin) = (some u, none)) ↔
      ∃ r ∈ s.userRows, r.pin_hash = models.hashPin (hashPin rawPin) := by
    refine ⟨?_, models.ValidateUserPin_of_stored s (hashPin rawPin)⟩
    rintro ⟨u, hu⟩
    obtain ⟨_, r, hm, hh, _⟩ :=
      models.ValidateUserPin_some_stored none s (hashPin rawPin) u (by rw [hu])
    exact ⟨r, hm, hh⟩
  rw [← hiff]
  unfold Login
  rcases hv : models.ValidateUserPin none s (hashPin rawPin) with ⟨_ | u, _ | e⟩ <;> simp [hv]

/-- C2: on the store that holds only the bootstrap admin, whose `pin_hash` is the SHA-256 hex
digest of "1234", `Login "1234"` answers "Invalid PIN" with `Success` false. -/
theorem Login_rejects_pin_with_stored_digest :
    (∃ r ∈ adminStore.userRows, r.pin_hash = models.hashPin "1234") ∧
      Login none adminStore "1234" = ⟨false, "Invalid PIN", 0, "", ""⟩ := by
  refine ⟨⟨⟨1, "Admin", database.defaultPinHash, "admin", 0⟩, by simp [adminStore, Store.userRows],
    hashPin_1234.symm⟩, ?_⟩
  have hv := models.ValidateUserPin_single adminStore _ 1 (hashPin "1234") rfl
  rw [hashPin_hashPin_1234, if_neg defaultPinHash_ne_digest_of_digest] at hv
  simp [Login, hv]

/-- C3: after the startup bootstrap of a store with no table, `Login "1234"` answers
"Invalid PIN" with `Success` false. -/
theorem Login_1234_fails_after_bootstrap (now : Timestamp) :
    (database.InitDB noFault noFault now Store.empty).2 = none ∧
      Login none (database.InitDB noFault noFault now Store.empty).1 "1234"
        = ⟨false, "Invalid PIN", 0, "", ""⟩ := by
  have h1 : database.InitDB noFault noFault now Store.empty
      = (⟨some ⟨[⟨1, "Admin", database.defaultPinHash, "admin", now⟩], 1⟩,
          some ⟨[], 0⟩, some ⟨[], 0⟩, some ⟨[], 0⟩, some ⟨[], 0⟩, some ⟨[], 0⟩, some ⟨[], 0⟩⟩,
         none) := rfl
  rw [h1]
  refine ⟨rfl, ?_⟩
  have hv := models.ValidateUserPin_single _ _ 1 (hashPin "1234")
    (show (Store.mk (some ⟨[⟨1, "Admin", database.defaultPinHash, "admin", now⟩], 1⟩)
      (some ⟨[], 0⟩) (some ⟨[], 0⟩) (some ⟨[], 0⟩) (some ⟨[], 0⟩) (some ⟨[], 0⟩)
      (some ⟨[], 0⟩)).users = _ from rfl)
  rw [hashPin_hashPin_1234, if_neg defaultPinHash_ne_digest_of_digest] at hv
  simp [Login, hv]

end app

namespace database

/-- A bootstrap that returns no error on a store without users leaves exactly the admin row. -/
theorem InitDB_users_of_no_error (faultT faultU : Nat → Option String) (s : Store)
    (now : Timestamp) (h : s.userRows = []) (hok : (InitDB faultT faultU now s).2 = none) :
    ∃ id, (InitDB faultT faultU now s).1.users
      = some ⟨[⟨id, "Admin", defaultPinHash, "admin", now⟩], id⟩ := by
  unfold InitDB at hok ⊢
  rcases hT : createTables faultT s with ⟨s1, _ | e⟩
  · have hT2 := createTables_of_no_error faultT s (by rw [hT])
    rw [hT] at hT2
    have hs1 : s1 = (createTables noFault s).1 := by rw [← hT2]
    have hS1 : s1.hasSchema = true := hs1 ▸ createTables_noFault_hasSchema s
    obtain ⟨⟨rows, q⟩, hU⟩ := users_of_hasSchema s1 hS1
    have hrows : rows = [] := by
      have hR := createTables_userRows noFault s
      rw [← hs1, h] at hR
      simpa [Store.userRows, hU] using hR
    subst hrows
    simp only [hT] at hok ⊢
    rw [createDefaultUser_empty faultU s1 q now hU] at hok ⊢
    cases h0 : faultU 0 with
    | some msg => simp [h0] at hok
    | none =>
      cases h1 : faultU 1 with
      | some msg => simp [h0, h1] at hok
      | none =>
        by_cases hq : MAX_ROWID ≤ q
        · simp [h0, h1, hq] at hok
        · exact ⟨max 1 (q + 1), by simp [hq]⟩
  · simp [hT] at hok

/-- C10, as amended: the literal stored for the bootstrap admin is the lowercase hex SHA-256
digest of "1234", which is `hashPin "1234"`; so after a bootstrap that returns no error on a store
without users, `ValidateUserPin "1234"` returns the user named "Admin" with role "admin", and
`ValidateUserPin p` returns no user for every `p` whose digest differs from the literal. -/
theorem defaultPinHash_is_digest_of_1234 (faultT faultU : Nat → Option String) (s : Store)
    (now : Timestamp) (h : s.userRows = []) (hok : (InitDB faultT faultU now s).2 = none) :
    defaultPinHash = sha256Hex "1234" ∧
    defaultPinHash = models.hashPin "1234" ∧
    (∃ u, models.ValidateUserPin none (InitDB faultT faultU now s).1 "1234" = (some u, none) ∧
      u.Name = "Admin" ∧ u.Role = "admin" ∧ u.PinHash = defaultPinHash ∧ u.CreatedAt = now) ∧
    (∀ p, sha256Hex p ≠ defaultPinHash →
      models.ValidateUserPin none (InitDB faultT faultU now s).1 p = (none, none)) := by
  obtain ⟨id, hid⟩ := InitDB_users_of_no_error faultT faultU s now h hok
  refine ⟨hashPin_1234.symm, hashPin_1234.symm, ?_, ?_⟩
  · have hv := models.ValidateUserPin_single _ _ id "1234" hid
    rw [if_pos hashPin_1234.symm] at hv
    exact ⟨_, hv, rfl, rfl, rfl, rfl⟩
  · intro p hp
    have hv := models.ValidateUserPin_single _ _ id p hid
    rw [if_neg (fun hc => hp hc.symm)] at hv
    exact hv

theorem defaultPinHash_is_digest_of_1234_witness :
    (∃ u, models.ValidateUserPin none (InitDB noFault noFault 5 Store.empty).1 "1234"
        = (some u, none) ∧
      u.Name = "Admin" ∧ u.Role = "admin" ∧ u.PinHash = defaultPinHash ∧ u.CreatedAt = 5) ∧
    models.ValidateUserPin none (InitDB noFault noFault 5 Store.empty).1 "0000" = (none, none) :=
  ⟨(defaultPinHash_is_digest_of_1234 noFault noFault Store.empty 5 rfl (by decide)).2.2.1,
   (defaultPinHash_is_digest_of_1234 noFault noFault Store.empty 5 rfl (by decide)).2.2.2
      "0000" (by decide)⟩

/-- C10, as first stated, fails on a store without users whose keys are used up: the bootstrap
returns an error, no admin is stored, and `ValidateUserPin "1234"` returns no user. -/
theorem no_admin_after_bootstrap_when_keys_used_up :
    exhaustedStore.userRows = [] ∧
    (InitDB noFault noFault 0 exhaustedStore).2
      = some "failed to create default user: database or disk is full" ∧
    models.ValidateUserPin none (InitDB noFault noFault 0 exhaustedStore).1 "1234"
      = (none, none) := by
  decide

end database

/-! ## Reachable stores -/

theorem nodup_map_of_length_le_one {α β : Type} (f : α → β) (l : List α) (h : l.length ≤ 1) :
    (l.map f).Nodup := by
  match l, h with
  | [], _ => simp
  | [_], _ => simp
  | _ :: _ :: _, h => simp at h

theorem createDefaultUser_userRows_length (fault : Nat → Option String) (now : Timestamp)
    (s : Store) (h : s.userRows.length ≤ 1) :
    (database.createDefaultUser fault now s).1.userRows.length ≤ 1 := by
  cases hU : s.users with
  | none => rw [database.createDefaultUser_of_no_table fault s now hU]; exact h
  | some t =>
    obtain ⟨rows, q⟩ := t
    by_cases he : rows = []
    · subst he
      rw [database.createDefaultUser_empty fault s q now hU]
      cases fault 0 with
      | some msg => exact h
      | none =>
        cases fault 1 with
        | some msg => exact h
        | none =>
          by_cases hq : MAX_ROWID ≤ q
          · simpa [hq] using h
          · simp [hq, Store.userRows]
    · rw [database.createDefaultUser_of_ne_nil fault s _ now hU he]
      cases fault 0 <;> exact h

theorem createDefaultUser_stock (fault : Nat → Option String) (now : Timestamp) (s : Store) :
    (database.createDefaultUser fault now s).1.stock = s.stock := by
  cases hU : s.users with
  | none => rw [database.createDefaultUser_of_no_table fault s now hU]
  | some t =>
    obtain ⟨rows, q⟩ := t
    by_cases he : rows = []
    · subst he
      rw [database.createDefaultUser_empty fault s q now hU]
      cases fault 0 with
      | some msg => rfl
      | none =>
        cases fault 1 with
        | some msg => rfl
        | none =>
          by_cases hq : MAX_ROWID ≤ q <;> simp [hq]
    · rw [database.createDefaultUser_of_ne_nil fault s _ now hU he]
      cases fault 0 <;> rfl

theorem createDefaultUser_stockRows (fault : Nat → Option String) (now : Timestamp) (s : Store) :
    (database.createDefaultUser fault now s).1.stockRows = s.stockRows := by
  simp only [Store.stockRows, createDefaultUser_stock]

theorem step_userRows_length (s : Store) (op : Op) (h : s.userRows.length ≤ 1) :
    (step s op).userRows.length ≤ 1 := by
  cases op with
  | createTables fault => simpa [step, database.createTables_userRows] using h
  | createDefaultUser fault now => exact createDefaultUser_userRows_length fault now s h
  | getUserByID _ _ => exact h
  | validateUserPin _ _ => exact h
  | login _ _ => exact h

theorem run_userRows_length (ops : List Op) (s : Store) (h : s.userRows.length ≤ 1) :
    (run s ops).userRows.length ≤ 1 := by
  induction ops generalizing s with
  | nil => exact h
  | cons op ops ih => exact ih (step s op) (step_userRows_length s op h)

/-- No operation of the program writes a stock row: a store reached from the empty one has
none. -/
theorem run_stockRows (ops : List Op) (s : Store) (h : s.stockRows = []) :
    (run s ops).stockRows = [] := by
  induction ops generalizing s with
  | nil => exact h
  | cons op ops ih =>
    apply ih
    cases op with
    | createTables fault => simpa [step, database.createTables_stockRows] using h
    | createDefaultUser fault now => simpa [step, createDefaultUser_stockRows] using h
    | getUserByID _ _ => exact h
    | validateUserPin _ _ => exact h
    | login _ _ => exact h

/-- C8: in every store reached from the empty one by a sequence of `createTables`,
`createDefaultUser`, `GetUserByID`, `ValidateUserPin` and `Login`, whatever fails on the way, no
two user rows share a `pin_hash` and no two share an `id`; there is at most one user row. -/
theorem reachable_users_unique (ops : List Op) :
    ((run Store.empty ops).userRows.map (fun r => r.pin_hash)).Nodup ∧
    ((run Store.empty ops).userRows.map (fun r => r.id)).Nodup ∧
    (run Store.empty ops).userRows.length ≤ 1 := by
  have h := run_userRows_length ops Store.empty (by simp [Store.empty, Store.userRows])
  exact ⟨nodup_map_of_length_le_one _ _ h, nodup_map_of_length_le_one _ _ h, h⟩
